import Mathlib

/-
  Verification of the MastraOpenDeepResearch orchestration core.

  Shallow embedding of:
  - the data model (src/mastra/types, file part_001),
  - routeTasks and the MastraGraph placeholder (workflows/flow, file part_002),
  - the refinement-loop node functions searchWeb / writeSection and
    compileFinalReport (src/mastra/agents/graphAgent.ts),
  - the Tavily search gateway tavilySearchAsync (src/mastra/tools/utils.ts).

  Modelling conventions:
  - TypeScript optional fields that the code defends with defaults are
    modelled as plain Lean values where every call site normalises them
    (e.g. completed_sections is a list, missing = []), and as Option where
    presence matters to the control flow.
  - A JS partial-update object is a record of Option fields; a field that
    is absent (or explicitly undefined) is none, and the spread
    { ...state, ...update } keeps the old value exactly for none fields.
  - In-place mutation of a shared object (state.section.sources pushes,
    section.content assignment) is modelled by returning the updated
    record.
  - LLM and search-provider responses are oracle inputs (explicit
    function arguments), since the code treats them as opaque
    request/response capabilities.
-/

namespace MastraODR

/-- A `{url, title}` source reference (SourceReference, part_001). -/
structure SourceReference where
  url : String
  title : String
deriving Repr, DecidableEq

/-- One report section (SectionSchema, part_001).  `content` and `sources`
are optional in the Zod schema; the code treats a missing `content` as the
empty string and a missing `sources` as the empty list, which is how they
are modelled here. -/
structure Section where
  name : String
  description : String
  research : Bool
  content : String := ""
  sources : List SourceReference := []
deriving Repr, DecidableEq

/-- A search query wrapper (SearchQuerySchema, part_001). -/
structure SearchQuery where
  search_query : String
deriving Repr, DecidableEq

/-- Grader feedback (FeedbackSchema, part_001): `grade` is the string
"pass" or "fail". -/
structure Feedback where
  grade : String
  follow_up_queries : List SearchQuery
deriving Repr, DecidableEq

/-- The shared report state threaded through the graph (ReportState,
part_001).  `completed_sections` is declared required in the TS interface
(optional in Zod); the code defends against `undefined` with `|| []`, so
it is a plain list here. -/
structure ReportState where
  topic : String := ""
  feedback_on_report_plan : Option (List String) := none
  sections : List Section := []
  completed_sections : List Section := []
  report_sections_from_research : Option String := none
  final_report : Option String := none
deriving Repr, DecidableEq

/-- A partial state update carried by a navigation directive.  A `none`
field is absent from the JS update object, so the spread merge keeps the
previous value. -/
structure StateUpdate where
  topic : Option String := none
  sections : Option (List Section) := none
  completed_sections : Option (List Section) := none
  feedback_on_report_plan : Option (List String) := none
  report_sections_from_research : Option String := none
  final_report : Option String := none
  «section» : Option Section := none
  search_iterations : Option Nat := none
  search_queries : Option (List SearchQuery) := none
  source_str : Option String := none
deriving Repr, DecidableEq

/-- A navigation directive (Command, part_001): `goto` names the next
node, `update` is an optional partial state update. -/
structure Command where
  goto : String
  update : Option StateUpdate := none
deriving Repr, DecidableEq

/-- The first section, in `sections` order, whose `name` is absent from
`completed_sections` — the scan loop of routeTasks (part_002, lines
218-226). -/
def firstUncompletedSection (state : ReportState) : Option Section :=
  state.sections.find? (fun s =>
    !(state.completed_sections.any (fun cs => cs.name == s.name)))

/-- routeTasks (part_002, lines 203-265): decide the next node from the
report state. -/
def routeTasks (state : ReportState) : Command :=
  let completedSectionsCount := state.completed_sections.length
  if state.sections.length = 0 then
    { goto := "compile-final-report" }
  else if completedSectionsCount = state.sections.length then
    { goto := "compile-final-report" }
  else
    match firstUncompletedSection state with
    | none => { goto := "compile-final-report" }
    | some currentSection =>
      if currentSection.research then
        { goto := "generate-queries"
          update := some
            { topic := some state.topic
              «section» := some currentSection
              search_iterations := some 0
              sections := some state.sections
              completed_sections := some state.completed_sections
              feedback_on_report_plan := state.feedback_on_report_plan
              report_sections_from_research := state.report_sections_from_research } }
      else
        { goto := "write-final-sections"
          update := some
            { topic := some state.topic
              «section» := some currentSection
              report_sections_from_research :=
                some (state.report_sections_from_research.getD "")
              sections := some state.sections
              completed_sections := some state.completed_sections
              feedback_on_report_plan := state.feedback_on_report_plan } }

/-- Per-section working state during refinement (SectionState, part_001). -/
structure SectionState where
  topic : String := ""
  «section» : Section
  search_iterations : Nat := 0
  search_queries : List SearchQuery := []
  source_str : String := ""
  report_sections_from_research : Option String := none
  completed_sections : List Section := []
deriving Repr, DecidableEq

/-- Result of selectAndExecuteSearch (utils.ts): the formatted search
context plus the validated source references. -/
structure SearchOutcome where
  formattedOutput : String
  sources : List SourceReference
deriving Repr, DecidableEq

/-- The configuration fields consumed by the embedded node functions
(Configuration, tools/config, part_003).  Model, provider and memory
fields are irrelevant to the verified logic and omitted. -/
structure Configuration where
  number_of_queries : Nat := 4
  max_search_depth : Nat := 2
deriving Repr, DecidableEq

/-- One insert step of the URL-uniqueness pattern used both by searchWeb
(graphAgent.ts, lines 423-432) and by compileFinalReport (lines 619-632):
the accumulator carries the collected sources and the `usedUrls` set of
already-present URLs (modelled as a list). -/
def addUniqueSource (acc : List SourceReference × List String)
    (source : SourceReference) : List SourceReference × List String :=
  if acc.2.contains source.url then acc
  else (acc.1 ++ [source], acc.2 ++ [source.url])

/-- The source-merging loop of searchWeb (graphAgent.ts, lines 423-432):
insert each returned source whose URL is not already present. -/
def mergeSources (existing newSources : List SourceReference) : List SourceReference :=
  (newSources.foldl addUniqueSource (existing, existing.map (fun s => s.url))).1

/-- searchWeb (graphAgent.ts, lines 403-439).  The search-provider
round-trip is the `searchResult` oracle argument.  The JS function
mutates `state.section.sources` in place and returns a partial update
`{source_str, search_iterations: state.search_iterations + 1}`; here the
whole updated SectionState is returned. -/
def searchWeb (state : SectionState) (searchResult : SearchOutcome) : SectionState :=
  let sec :=
    if searchResult.sources.length > 0 then
      { state.«section» with
          sources := mergeSources state.«section».sources searchResult.sources }
    else state.«section»
  { state with
      «section» := sec
      source_str := searchResult.formattedOutput
      search_iterations := state.search_iterations + 1 }

/-- writeSection (graphAgent.ts, lines 450-547).  The generated section
text and the grader feedback are oracle arguments; the URL-extraction
block only emits warnings and does not affect the returned command.  The
code first assigns `section.content = generated text`, then routes: END
when the grade is "pass" or `search_iterations >= max_search_depth`,
otherwise back to search-web with the follow-up queries. -/
def writeSection (configuration : Configuration) (state : SectionState)
    (generatedContent : String) (feedback : Feedback) : Command :=
  let sec := { state.«section» with content := generatedContent }
  if feedback.grade = "pass" ∨ configuration.max_search_depth ≤ state.search_iterations then
    { goto := "END", update := some { completed_sections := some [sec] } }
  else
    { goto := "search-web"
      update := some { search_queries := some feedback.follow_up_queries
                       «section» := some sec } }

/-- Oracle for one refinement run: per-pass search outcome, generated
section text and grader feedback, indexed by the pass number (the value
of `search_iterations` after that pass's searchWeb increment). -/
structure RefinementOracle where
  searchOutcome : Nat → SearchOutcome
  generatedContent : Nat → String
  feedback : Nat → Feedback

/-- The search-web → write-section cycle of the refinement loop
(flow, part_002, edges at lines 307-316): run searchWeb, then
writeSection; if writeSection routes to "search-web" (grade fail and
depth not reached), loop with the follow-up queries and the rewritten
section, else stop.  Returns the number of search passes executed and the
final command. -/
def runRefinementLoop (configuration : Configuration) (oracle : RefinementOracle)
    (state : SectionState) : Nat × Command :=
  let st1 := searchWeb state (oracle.searchOutcome (state.search_iterations + 1))
  let content := oracle.generatedContent st1.search_iterations
  let fb := oracle.feedback st1.search_iterations
  if fb.grade = "pass" ∨ configuration.max_search_depth ≤ st1.search_iterations then
    (1, writeSection configuration st1 content fb)
  else
    let st2 := { st1 with
                   search_queries := fb.follow_up_queries
                   «section» := { st1.«section» with content := content } }
    let r := runRefinementLoop configuration oracle st2
    (r.1 + 1, r.2)
termination_by configuration.max_search_depth - state.search_iterations
decreasing_by
  have hlt : state.search_iterations + 1 < configuration.max_search_depth := by
    have h1 : ¬ configuration.max_search_depth ≤ state.search_iterations + 1 :=
      fun hle => (by assumption : ¬ _) (Or.inr hle)
    omega
  show configuration.max_search_depth - (state.search_iterations + 1)
      < configuration.max_search_depth - state.search_iterations
  omega

/-- Output of a finished run (ReportStateOutput, part_001). -/
structure ReportStateOutput where
  final_report : String
deriving Repr, DecidableEq

/-- The `completed_sections.reduce` of compileFinalReport (graphAgent.ts,
lines 605-608): a name → content map where a later completed entry with
the same name overwrites an earlier one. -/
def completedContent (completed : List Section) (name : String) : Option String :=
  completed.foldl (fun acc s => if s.name = name then some s.content else acc) none

/-- `completedSections[section.name] || section.content` (graphAgent.ts,
line 612): the looked-up content wins unless it is missing or falsy (the
empty string). -/
def mergedContent (completed : List Section) (s : Section) : String :=
  match completedContent completed s.name with
  | some v => if v = "" then s.content else v
  | none => s.content

/-- The in-place content merge of compileFinalReport (graphAgent.ts,
lines 610-613): every section takes its completed content, keeping the
original `sections` order. -/
def mergeSectionContents (sections completed : List Section) : List Section :=
  sections.map (fun s => { s with content := mergedContent completed s })

/-- The reference-collection loop of compileFinalReport (graphAgent.ts,
lines 618-632): walk the sections in order, pushing each source whose URL
has not been seen yet. -/
def collectUniqueSources (sections : List Section) : List SourceReference :=
  (sections.foldl (fun acc s => s.sources.foldl addUniqueSource acc)
    (([] : List SourceReference), ([] : List String))).1

/-- The numbered bibliography lines (graphAgent.ts, lines 639-641):
entry i is `i+1. [title](url)` followed by a newline. -/
def referenceList (sources : List SourceReference) : String :=
  String.join (sources.enum.map (fun p =>
    toString (p.1 + 1) ++ ". [" ++ p.2.title ++ "](" ++ p.2.url ++ ")\n"))

/-- The bibliography header appended before the reference list
(graphAgent.ts, line 638). -/
def referencesHeader : String := "\n\n## 参考文献\n\n"

/-- compileFinalReport (graphAgent.ts, lines 603-645): merge completed
content into the sections, join the contents with blank lines, and append
the deduplicated numbered bibliography when any source exists. -/
def compileFinalReport (state : ReportState) : ReportStateOutput :=
  let sections := mergeSectionContents state.sections state.completed_sections
  let allSections := String.intercalate ("\n\n") (sections.map (fun s => s.content))
  let allSources := collectUniqueSources sections
  let finalReport :=
    if allSources.length > 0 then
      allSections ++ referencesHeader ++ referenceList allSources
    else allSections
  { final_report := finalReport }

/-- A node's return value in the placeholder MastraGraph (part_002): a
navigation directive or a plain partial-state update. -/
inductive NodeResult where
  | command : Command → NodeResult
  | partialUpdate : StateUpdate → NodeResult

/-- A conditional edge of the placeholder MastraGraph (part_002, lines
92-101): a predicate over the merged state and the directive, and the
target node. -/
structure CondEdge where
  condition : ReportState → Command → Bool
  toNode : String

/-- The placeholder MastraGraph of workflows/flow (part_002, lines
50-192), instantiated at ReportState as in the flow file.  `nodes` and
the edge maps are association lists.  Node functions are pure here: the
oracle dependencies of the real stage functions are closed over by the
function stored in the graph. -/
structure MastraGraph where
  nodes : List (String × (ReportState → NodeResult)) := []
  entryPoint : Option String := none
  edges : List (String × List String) := []
  conditionalEdges : List (String × List CondEdge) := []

/-- Association-list lookup used for the nodes/edges Maps of the
placeholder graph. -/
def lookupAssoc {α : Type} : List (String × α) → String → Option α
  | [], _ => none
  | e :: es, k => if e.1 == k then some e.2 else lookupAssoc es k

/-- The spread merge of MastraGraph.run (part_002, lines 127 and 167):
`{ ...currentState, ...update }`, where an absent field keeps its
previous value. -/
def applyUpdate (s : ReportState) (u : StateUpdate) : ReportState :=
  { topic := u.topic.getD s.topic
    feedback_on_report_plan :=
      match u.feedback_on_report_plan with
      | some v => some v
      | none => s.feedback_on_report_plan
    sections := u.sections.getD s.sections
    completed_sections := u.completed_sections.getD s.completed_sections
    report_sections_from_research :=
      match u.report_sections_from_research with
      | some v => some v
      | none => s.report_sections_from_research
    final_report :=
      match u.final_report with
      | some v => some v
      | none => s.final_report }

/-- First conditional edge whose predicate accepts the merged state and
the directive (part_002, lines 131-142), in registration order. -/
def firstMatchingEdge : List CondEdge → ReportState → Command → Option String
  | [], _, _ => none
  | e :: es, st, cmd => if e.condition st cmd then some e.toNode else firstMatchingEdge es st cmd

/-- The body of MastraGraph.run's while-loop (part_002, lines 110-191).
`fuel` is the remaining `maxSteps` budget; when it reaches 0 the JS loop
exits, logs "Workflow exceeded maximum steps." and returns the current
state — not an error. -/
def runAux (g : MastraGraph) : Nat → String → ReportState → Except String ReportState
  | 0, _, st => .ok st
  | fuel + 1, currentNodeName, st =>
    match lookupAssoc g.nodes currentNodeName with
    | none => .error ("Node " ++ currentNodeName ++ " not found")
    | some nodeFunc =>
      match nodeFunc st with
      | .command cmd =>
        let st1 := applyUpdate st (cmd.update.getD {})
        match firstMatchingEdge ((lookupAssoc g.conditionalEdges currentNodeName).getD []) st1 cmd with
        | some target => runAux g fuel target st1
        | none =>
          if cmd.goto = "END" then
            if currentNodeName = "write-section" then
              runAux g fuel "gather-completed-sections" st1
            else .ok st1
          else if (lookupAssoc g.nodes cmd.goto).isSome then
            runAux g fuel cmd.goto st1
          else
            .error ("Next node " ++ cmd.goto ++ " specified by command from "
                    ++ currentNodeName ++ " not found or not a simple string goto.")
      | .partialUpdate u =>
        let st1 := applyUpdate st u
        match lookupAssoc g.edges currentNodeName with
        | some (t :: _) => runAux g fuel t st1
        | _ =>
          if currentNodeName = "compile-final-report" ∧ st1.final_report.isSome then
            .ok st1
          else
            .error ("No direct edge from " ++ currentNodeName
                    ++ " and result was not a command.")

/-- MastraGraph.run (part_002, lines 110-191): fail when no entry point
is set, else loop for at most 20 steps (`let maxSteps = 20`). -/
def MastraGraph.run (g : MastraGraph) (initialState : ReportState) : Except String ReportState :=
  match g.entryPoint with
  | none => .error "MastraGraph: Entry point not set."
  | some entry => runAux g 20 entry initialState

/-- A one-node graph whose node returns an empty partial update and whose
only edge loops back to itself: `run` cycles until the step budget is
exhausted. -/
def loopingGraph : MastraGraph :=
  { nodes := [("a", fun _ => .partialUpdate {})]
    entryPoint := some "a"
    edges := [("a", ["a"])] }

/-- One provider search result (SearchResult, utils.ts lines 6-12).  The
floating-point `score` is never inspected by the embedded functions and
is omitted. -/
structure SearchResult where
  title : String
  url : String
  content : String
  raw_content : Option String := none
deriving Repr, DecidableEq

/-- One per-query response (SearchResponse, utils.ts lines 14-21). -/
structure SearchResponse where
  query : String
  follow_up_questions : Option (List String) := none
  answer : Option String := none
  images : List String := []
  results : List SearchResult := []
  error : Option String := none
deriving Repr, DecidableEq

/-- The cache key of tavilySearchAsync (utils.ts lines 184 and 206):
the template string `query:maxResults:topic:includeRawContent`. -/
def cacheKey (query : String) (maxResults : Nat) (topic : String)
    (includeRawContent : Bool) : String :=
  query ++ ":" ++ toString maxResults ++ ":" ++ topic ++ ":"
    ++ (if includeRawContent then "true" else "false")

/-- Lookup in the in-memory `searchCache` record, modelled as an
association list threaded through calls (the JS object is module state
living for the process). -/
def lookupCache : List (String × SearchResponse) → String → Option SearchResponse
  | [], _ => none
  | e :: es, k => if e.1 == k then some e.2 else lookupCache es k

/-- The cache-partition loop of tavilySearchAsync (utils.ts lines
179-191): cached responses are pushed to `results` first, the remaining
queries keep their order in `uncachedQueries`. -/
def splitCached (cache : List (String × SearchResponse)) (maxResults : Nat)
    (topic : String) (includeRawContent : Bool) :
    List String → List SearchResponse × List String
  | [] => ([], [])
  | q :: qs =>
    let rest := splitCached cache maxResults topic includeRawContent qs
    match lookupCache cache (cacheKey q maxResults topic includeRawContent) with
    | some hit => (hit :: rest.1, rest.2)
    | none => (rest.1, q :: rest.2)

/-- `uncachedQueries.slice(i, i + batchSize)` with `batchSize = 2`
(utils.ts lines 176 and 196-197): split a list into chunks of two. -/
def chunksOf2 {α : Type} : List α → List (List α)
  | [] => []
  | [a] => [[a]]
  | a :: b :: rest => [a, b] :: chunksOf2 rest

/-- The error response built in the batch catch-handler (utils.ts lines
224-231). -/
def errorResponse (query message : String) : SearchResponse :=
  { query := query
    follow_up_questions := none
    answer := none
    images := []
    results := []
    error := some message }

/-- The rejection reason seen by the batch catch-handler: the error of
the first failing provider promise of the batch (Promise.all rejects with
the first rejection; batch order stands in for rejection order in this
deterministic model). -/
def firstErrorMsg : List (String × Except String SearchResponse) → String
  | [] => ""
  | e :: es =>
    match e.2 with
    | .error msg => msg
    | .ok _ => firstErrorMsg es

/-- One batch of tavilySearchAsync (utils.ts lines 196-233).  Every query
of the batch is sent to the provider; each successful response is stored
in the cache by its query's key (the per-promise `.then` runs even when
another promise of the batch rejects).  If every promise succeeded the
responses are appended; if any failed, the catch-handler replaces the
whole batch with error-tagged empty responses.  Returns (responses, new
cache entries). -/
def processBatch (provider : String → Except String SearchResponse)
    (maxResults : Nat) (topic : String) (includeRawContent : Bool)
    (batch : List String) :
    List SearchResponse × List (String × SearchResponse) :=
  let outcomes := batch.map (fun q => (q, provider q))
  let newEntries := outcomes.filterMap (fun qe =>
    match qe.2 with
    | .ok resp => some (cacheKey qe.1 maxResults topic includeRawContent, resp)
    | .error _ => none)
  let responses :=
    if outcomes.all (fun qe => qe.2.isOk) then
      outcomes.filterMap (fun qe => qe.2.toOption)
    else
      batch.map (fun q => errorResponse q (firstErrorMsg outcomes))
  (responses, newEntries)

/-- The batch loop of tavilySearchAsync (utils.ts lines 196-234): process
the chunks in order, concatenating responses and cache insertions, and
logging each provider invocation by its query string (ghost information
used to state the caching claims). -/
def runBatches (provider : String → Except String SearchResponse)
    (maxResults : Nat) (topic : String) (includeRawContent : Bool) :
    List (List String) →
    List SearchResponse × List (String × SearchResponse) × List String
  | [] => ([], [], [])
  | b :: bs =>
    let p := processBatch provider maxResults topic includeRawContent b
    let rest := runBatches provider maxResults topic includeRawContent bs
    (p.1 ++ rest.1, p.2 ++ rest.2.1, b ++ rest.2.2)

/-- tavilySearchAsync (utils.ts lines 167-246).  The Tavily client is the
`provider` oracle; the module-level `searchCache` is threaded explicitly.
Returns the reordered responses, the cache after the call, and the ghost
log of provider invocations (one entry per query sent to the provider).
The final reordering (lines 237-243) keeps, for each requested query in
order, the first collected response whose `query` field matches it. -/
def tavilySearchAsync (provider : String → Except String SearchResponse)
    (searchQueries : List String) (maxResults : Nat) (topic : String)
    (includeRawContent : Bool) (searchCache : List (String × SearchResponse)) :
    List SearchResponse × List (String × SearchResponse) × List String :=
  let split := splitCached searchCache maxResults topic includeRawContent searchQueries
  let rb := runBatches provider maxResults topic includeRawContent (chunksOf2 split.2)
  let results := split.1 ++ rb.1
  let newCache := searchCache ++ rb.2.1
  let orderedResults := searchQueries.filterMap (fun q =>
    results.find? (fun r => r.query == q))
  (orderedResults, newCache, rb.2.2)

/-- Deduplication keeping the first occurrence, in encounter order: the
specification-side description of the `usedUrls` filtering. -/
def dedupFirstOccurrence : List String → List String
  | [] => []
  | u :: rest => u :: dedupFirstOccurrence (rest.filter (fun v => !(v == u)))
termination_by l => l.length
decreasing_by
  simp only [List.length_cons]
  exact Nat.lt_succ_of_le (List.length_filter_le _ _)

/-- A state with two sections sharing the name "A", one of them completed:
every section is "completed" by name membership although only one of two
entries is completed by count. -/
def duplicateNameState : ReportState :=
  { topic := "t"
    sections :=
      [ { name := "A", description := "first", research := true }
      , { name := "A", description := "second", research := false } ]
    completed_sections :=
      [ { name := "A", description := "first", research := true, content := "done" } ] }

/-- Fixture: a research section. -/
def sectionR : Section :=
  { name := "R", description := "research part", research := true }

/-- Fixture: a non-research section. -/
def sectionN : Section :=
  { name := "N", description := "written part", research := false }

/-- Fixture: a fresh report state with one research and one non-research
section, nothing completed. -/
def witnessState : ReportState :=
  { topic := "w", sections := [sectionR, sectionN] }

/-- Fixture: a report state that already carries a completed section
(used to exhibit the replace-not-accumulate merge). -/
def priorState : ReportState :=
  { topic := "w", sections := [sectionR, sectionN]
    completed_sections := [{ sectionN with content := "earlier" }] }

/-- Fixture: the default configuration values of tools/config
(part_003). -/
def defaultConfiguration : Configuration :=
  { number_of_queries := 4, max_search_depth := 2 }

/-- Fixture: a configuration with `max_search_depth = 0`, legal because
the bound is an external configuration value (tools/config, part_003). -/
def zeroDepthConfiguration : Configuration :=
  { number_of_queries := 4, max_search_depth := 0 }

/-- Fixture: an oracle whose grader fails every pass and whose searches
return nothing. -/
def alwaysFailOracle : RefinementOracle :=
  { searchOutcome := fun _ => { formattedOutput := "", sources := [] }
    generatedContent := fun _ => ""
    feedback := fun _ => { grade := "fail", follow_up_queries := [] } }

/-- Fixture: a section state entering research, as produced by the
routeTasks directive (`search_iterations = 0`). -/
def initialSectionState : SectionState :=
  { topic := "w", «section» := sectionR }

/-- Fixture: a passing grade with no follow-up queries. -/
def passFeedback : Feedback := { grade := "pass", follow_up_queries := [] }

/-- Fixture: generated section text used by witnesses. -/
def witnessContent : String := "written content"

/-- Fixture: a search outcome carrying a duplicated URL. -/
def duplicateUrlOutcome : SearchOutcome :=
  { formattedOutput := "ctx"
    sources :=
      [ { url := "http://a.example", title := "A" }
      , { url := "http://a.example", title := "A again" }
      , { url := "http://b.example", title := "B" } ] }

/-- Fixture: a provider for which the query "q1" fails with a
non-rate-limit error while every other query succeeds. -/
def partialFailureProvider : String → Except String SearchResponse := fun q =>
  if q == "q1" then Except.error ("boom")
  else Except.ok
    { query := q
      results := [{ title := "T", url := "http://example.com/x", content := "c" }] }

/-- Fixture: a provider that always fails. -/
def failingProvider : String → Except String SearchResponse := fun _ =>
  Except.error ("provider down")

/-- Fixture: a provider that always succeeds, echoing the query. -/
def okProvider : String → Except String SearchResponse := fun q =>
  Except.ok { query := q, results := [] }

end MastraODR

namespace MastraODR

/- ------------------------------------------------------------------ -/
/- Helper lemmas                                                      -/
/- ------------------------------------------------------------------ -/

/-- searchWeb increments `search_iterations` by exactly one. -/
theorem searchWeb_search_iterations (state : SectionState) (outcome : SearchOutcome) :
    (searchWeb state outcome).search_iterations = state.search_iterations + 1 := rfl

/- ------------------------------------------------------------------ -/
/- C1: routeTasks                                                     -/
/- ------------------------------------------------------------------ -/

/-- Claim C1 (amended): when `sections` is empty or the completed count
equals the section count, routeTasks directs to compile-final-report;
when the completed count is strictly smaller, routeTasks selects the
first section (in `sections` order) whose name is absent from
`completed_sections` — if one exists — and routes it to generate-queries
with `search_iterations = 0` when its research flag is set, else to
write-final-sections; when no such section exists (possible only with
duplicate section names), it falls back to compile-final-report. -/
theorem routeTasks_spec (state : ReportState) :
    ((state.sections = [] ∨ state.completed_sections.length = state.sections.length) →
      routeTasks state = { goto := "compile-final-report" }) ∧
    (state.completed_sections.length < state.sections.length →
      firstUncompletedSection state = none →
      routeTasks state = { goto := "compile-final-report" }) ∧
    (∀ sel : Section,
      state.completed_sections.length < state.sections.length →
      firstUncompletedSection state = some sel →
      routeTasks state =
        (if sel.research then
          { goto := "generate-queries"
            update := some
              { topic := some state.topic
                «section» := some sel
                search_iterations := some 0
                sections := some state.sections
                completed_sections := some state.completed_sections
                feedback_on_report_plan := state.feedback_on_report_plan
                report_sections_from_research := state.report_sections_from_research } }
        else
          { goto := "write-final-sections"
            update := some
              { topic := some state.topic
                «section» := some sel
                report_sections_from_research :=
                  some (state.report_sections_from_research.getD "")
                sections := some state.sections
                completed_sections := some state.completed_sections
                feedback_on_report_plan := state.feedback_on_report_plan } })) := by
  refine ⟨?_, ?_, ?_⟩
  · rintro (h | h)
    · simp [routeTasks, h]
    · unfold routeTasks
      by_cases hnil : state.sections.length = 0
      · simp [hnil]
      · simp [hnil, h]
  · intro hlt hnone
    have h0 : state.sections.length ≠ 0 := by omega
    have h1 : state.completed_sections.length ≠ state.sections.length := Nat.ne_of_lt hlt
    unfold routeTasks
    rw [if_neg h0, if_neg h1, hnone]
  · intro sel hlt hsel
    have h0 : state.sections.length ≠ 0 := by omega
    have h1 : state.completed_sections.length ≠ state.sections.length := Nat.ne_of_lt hlt
    unfold routeTasks
    rw [if_neg h0, if_neg h1, hsel]

/-- Witness for C1: on the fixture state the first uncompleted section is
the research section, so routeTasks routes to generate-queries. -/
theorem routeTasks_spec_witness :
    (routeTasks witnessState).goto = "generate-queries" := by
  have h := (routeTasks_spec witnessState).2.2 sectionR (by decide) (by decide)
  rw [h]
  decide

/-- Counterexample for C1 as stated: with two sections named "A" and one
completed entry named "A", the completed count (1) is strictly below the
section count (2), yet no section's name is absent from
`completed_sections`, and routeTasks directs to compile-final-report
instead of selecting a section. -/
theorem routeTasks_duplicate_name_cex :
    duplicateNameState.sections ≠ [] ∧
    duplicateNameState.completed_sections.length < duplicateNameState.sections.length ∧
    firstUncompletedSection duplicateNameState = none ∧
    routeTasks duplicateNameState = { goto := "compile-final-report" } := by
  decide

/- ------------------------------------------------------------------ -/
/- C3: writeSection routing                                           -/
/- ------------------------------------------------------------------ -/

/-- Claim C3: writeSection emits `{goto: "END", update:
{completed_sections: [section]}}` exactly when the grade is "pass" or
`search_iterations ≥ max_search_depth`; otherwise it emits `{goto:
"search-web", update: {search_queries: follow_up_queries, section}}`, so
a failed grade re-enters at search-web, never at generate-queries. -/
theorem writeSection_routing (configuration : Configuration) (state : SectionState)
    (generatedContent : String) (feedback : Feedback) :
    (writeSection configuration state generatedContent feedback =
        { goto := "END"
          update :=
            some { completed_sections := some [{ state.«section» with content := generatedContent }] } }
      ↔ (feedback.grade = "pass"
          ∨ configuration.max_search_depth ≤ state.search_iterations)) ∧
    (¬(feedback.grade = "pass"
        ∨ configuration.max_search_depth ≤ state.search_iterations) →
      writeSection configuration state generatedContent feedback =
        { goto := "search-web"
          update := some { search_queries := some feedback.follow_up_queries
                           «section» :=
                             some { state.«section» with content := generatedContent } } }) := by
  by_cases h : feedback.grade = "pass"
      ∨ configuration.max_search_depth ≤ state.search_iterations
  · refine ⟨?_, fun hc => absurd h hc⟩
    unfold writeSection
    rw [if_pos h]
    simp [h]
  · refine ⟨?_, ?_⟩
    · unfold writeSection
      rw [if_neg h]
      constructor
      · intro heq
        have hgoto : "search-web" = "END" := congrArg Command.goto heq
        exact absurd hgoto (by decide)
      · intro hc
        exact absurd hc h
    · intro _
      unfold writeSection
      rw [if_neg h]

/-- Witness for C3: with a passing grade the fixture section is completed
(END), and with a failing grade at depth 2 and iteration count 1 the
command re-enters search-web. -/
theorem writeSection_routing_witness :
    writeSection defaultConfiguration initialSectionState witnessContent passFeedback =
      { goto := "END"
        update :=
          some { completed_sections := some [{ initialSectionState.«section» with content := witnessContent }] } } :=
  (writeSection_routing defaultConfiguration initialSectionState
    witnessContent passFeedback).1.mpr (Or.inl rfl)

/- ------------------------------------------------------------------ -/
/- C4: the spread merge replaces completed_sections                   -/
/- ------------------------------------------------------------------ -/

/-- Claim C4: merging a write-section END directive into any shared state
via the shallow spread of MastraGraph.run leaves `completed_sections`
equal to exactly the one-element list containing the just-written
section — earlier completed sections are discarded, not accumulated. -/
theorem run_merge_replaces_completed_sections (s : ReportState)
    (configuration : Configuration) (state : SectionState)
    (generatedContent : String) (feedback : Feedback)
    (h : feedback.grade = "pass"
        ∨ configuration.max_search_depth ≤ state.search_iterations) :
    (applyUpdate s
        ((writeSection configuration state generatedContent feedback).update.getD {})).completed_sections
      = [{ state.«section» with content := generatedContent }] := by
  unfold writeSection
  rw [if_pos h]
  rfl

/-- Witness for C4: merging the END directive into a state that already
holds a completed section replaces the list with the single new
section. -/
theorem run_merge_replaces_completed_sections_witness :
    (applyUpdate priorState
        ((writeSection defaultConfiguration initialSectionState
            witnessContent passFeedback).update.getD {})).completed_sections
      = [{ initialSectionState.«section» with content := witnessContent }] :=
  run_merge_replaces_completed_sections priorState defaultConfiguration
    initialSectionState witnessContent passFeedback (Or.inl rfl)

/- ------------------------------------------------------------------ -/
/- C5: step-count exhaustion                                          -/
/- ------------------------------------------------------------------ -/

/-- Claim C5 (amended): when the fixed 20-step budget of MastraGraph.run
is exhausted without termination, run returns the partially processed
state as a normal result (after logging) rather than failing; the fatal
paths are a missing entry point and unregistered nodes. -/
theorem run_step_exhaustion_returns_state :
    (∀ (g : MastraGraph) (nodeName : String) (st : ReportState),
        runAux g 0 nodeName st = .ok st) ∧
    (∀ (g : MastraGraph) (st : ReportState), g.entryPoint = none →
        g.run st = .error "MastraGraph: Entry point not set.") := by
  constructor
  · intro g nodeName st
    rfl
  · intro g st h
    unfold MastraGraph.run
    rw [h]

/-- Witness for C5 (amended): the empty graph has no entry point and run
fails fast on it, while an exhausted budget yields the current state. -/
theorem run_step_exhaustion_returns_state_witness :
    runAux loopingGraph 0 "a" witnessState = .ok witnessState ∧
    MastraGraph.run {} witnessState = .error "MastraGraph: Entry point not set." :=
  ⟨run_step_exhaustion_returns_state.1 loopingGraph "a" witnessState,
   run_step_exhaustion_returns_state.2 {} witnessState rfl⟩

/- ------------------------------------------------------------------ -/
/- C2: the refinement loop is bounded by max_search_depth             -/
/- ------------------------------------------------------------------ -/

/-- One unfolding of runRefinementLoop with the lets and the searchWeb
iteration count reduced. -/
theorem runRefinementLoop_eq (configuration : Configuration)
    (oracle : RefinementOracle) (state : SectionState) :
    runRefinementLoop configuration oracle state =
      (if (oracle.feedback (state.search_iterations + 1)).grade = "pass"
          ∨ configuration.max_search_depth ≤ state.search_iterations + 1 then
        (1, writeSection configuration
              (searchWeb state (oracle.searchOutcome (state.search_iterations + 1)))
              (oracle.generatedContent (state.search_iterations + 1))
              (oracle.feedback (state.search_iterations + 1)))
      else
        ((runRefinementLoop configuration oracle
            { searchWeb state (oracle.searchOutcome (state.search_iterations + 1)) with
                search_queries :=
                  (oracle.feedback (state.search_iterations + 1)).follow_up_queries
                «section» :=
                  { (searchWeb state
                      (oracle.searchOutcome (state.search_iterations + 1))).«section» with
                      content := oracle.generatedContent (state.search_iterations + 1) } }).1 + 1,
          (runRefinementLoop configuration oracle
            { searchWeb state (oracle.searchOutcome (state.search_iterations + 1)) with
                search_queries :=
                  (oracle.feedback (state.search_iterations + 1)).follow_up_queries
                «section» :=
                  { (searchWeb state
                      (oracle.searchOutcome (state.search_iterations + 1))).«section» with
                      content := oracle.generatedContent (state.search_iterations + 1) } }).2)) := by
  rw [runRefinementLoop]
  rfl

/-- The refinement loop executes at most `max_search_depth - n` passes
when entered with `search_iterations` below `max_search_depth`. -/
theorem runRefinementLoop_le (configuration : Configuration) (oracle : RefinementOracle) :
    ∀ (n : Nat) (state : SectionState),
      configuration.max_search_depth - state.search_iterations = n →
      state.search_iterations < configuration.max_search_depth →
      (runRefinementLoop configuration oracle state).1 ≤ n := by
  intro n
  induction n with
  | zero =>
    intro state hn hlt
    omega
  | succ n ih =>
    intro state hn hlt
    rw [runRefinementLoop_eq]
    by_cases hc : (oracle.feedback (state.search_iterations + 1)).grade = "pass"
        ∨ configuration.max_search_depth ≤ state.search_iterations + 1
    · rw [if_pos hc]
      omega
    · rw [if_neg hc]
      have hlt2 : state.search_iterations + 1 < configuration.max_search_depth := by
        rcases Nat.lt_or_ge (state.search_iterations + 1) configuration.max_search_depth with h | h
        · exact h
        · exact absurd (Or.inr h) hc
      have hbound := ih
        { searchWeb state (oracle.searchOutcome (state.search_iterations + 1)) with
            search_queries :=
              (oracle.feedback (state.search_iterations + 1)).follow_up_queries
            «section» :=
              { (searchWeb state
                  (oracle.searchOutcome (state.search_iterations + 1))).«section» with
                  content := oracle.generatedContent (state.search_iterations + 1) } }
        (show configuration.max_search_depth - (state.search_iterations + 1) = n by omega)
        (show state.search_iterations + 1 < configuration.max_search_depth from hlt2)
      show (runRefinementLoop configuration oracle
        { searchWeb state (oracle.searchOutcome (state.search_iterations + 1)) with
            search_queries :=
              (oracle.feedback (state.search_iterations + 1)).follow_up_queries
            «section» :=
              { (searchWeb state
                  (oracle.searchOutcome (state.search_iterations + 1))).«section» with
                  content := oracle.generatedContent (state.search_iterations + 1) } }).1 + 1 ≤ n + 1
      omega

/-- Claim C2 (amended): searchWeb increments `search_iterations` exactly
once per pass, writeSection emits END whenever `search_iterations ≥
max_search_depth`, and — provided `max_search_depth ≥ 1` — a section
entering research with `search_iterations = 0` never receives more than
`max_search_depth` search passes, even under repeated "fail" grades.
(With `max_search_depth = 0`, one pass still executes: search-web runs
before the first depth check.) -/
theorem refinement_search_pass_bound (configuration : Configuration)
    (oracle : RefinementOracle) (state : SectionState)
    (h0 : state.search_iterations = 0) (h1 : 1 ≤ configuration.max_search_depth) :
    (∀ (s : SectionState) (outcome : SearchOutcome),
        (searchWeb s outcome).search_iterations = s.search_iterations + 1) ∧
    (∀ (s : SectionState) (generatedContent : String) (feedback : Feedback),
        configuration.max_search_depth ≤ s.search_iterations →
        (writeSection configuration s generatedContent feedback).goto = "END") ∧
    (runRefinementLoop configuration oracle state).1 ≤ configuration.max_search_depth := by
  refine ⟨fun s o => rfl, ?_, ?_⟩
  · intro s gc fb h
    unfold writeSection
    rw [if_pos (Or.inr h)]
  · have hb := runRefinementLoop_le configuration oracle
      (configuration.max_search_depth - state.search_iterations) state rfl (by omega)
    omega

/-- Witness for C2: with the default depth 2 and an always-failing
grader, the fixture section receives at most 2 search passes. -/
theorem refinement_search_pass_bound_witness :
    (runRefinementLoop defaultConfiguration alwaysFailOracle initialSectionState).1 ≤ 2 :=
  (refinement_search_pass_bound defaultConfiguration alwaysFailOracle
    initialSectionState rfl (by decide)).2.2

/-- Counterexample for C2 as stated: under the legal configuration
`max_search_depth = 0` the loop still executes one search pass (search-web
runs unconditionally before writeSection's first depth check), exceeding
the configured bound of zero. -/
theorem refinement_depth_zero_cex :
    zeroDepthConfiguration.max_search_depth = 0 ∧
    (runRefinementLoop zeroDepthConfiguration alwaysFailOracle initialSectionState).1 = 1 := by
  refine ⟨rfl, ?_⟩
  rw [runRefinementLoop_eq, if_pos (Or.inr (by decide))]

/-- Counterexample for C5 as stated: the one-node looping graph cycles
until the 20-step budget is exhausted, and run returns the partially
processed state as a successful result instead of failing with a fatal
error. -/
theorem run_cycle_returns_state_cex :
    MastraGraph.run loopingGraph witnessState = .ok witnessState := by
  rfl

/- ------------------------------------------------------------------ -/
/- C7: compileFinalReport is idempotent                               -/
/- ------------------------------------------------------------------ -/

/-- mergedContent of a content-updated section, by definitional
unfolding: the name (and hence the lookup) is unchanged. -/
theorem mergedContent_update (completed : List Section) (s : Section) (c : String) :
    mergedContent completed { s with content := c }
      = match completedContent completed s.name with
        | some v => if v = "" then c else v
        | none => c := rfl

/-- Merging completed content into an already-merged section changes
nothing. -/
theorem mergedContent_merge (completed : List Section) (s : Section) :
    mergedContent completed { s with content := mergedContent completed s }
      = mergedContent completed s := by
  rw [mergedContent_update]
  cases h : completedContent completed s.name with
  | none => simp [h]
  | some v =>
    by_cases hv : v = ""
    · simp [h, hv]
    · simp [h, hv, mergedContent]

/-- The content merge of compileFinalReport is idempotent on the section
list. -/
theorem mergeSectionContents_idem (sections completed : List Section) :
    mergeSectionContents (mergeSectionContents sections completed) completed
      = mergeSectionContents sections completed := by
  unfold mergeSectionContents
  rw [List.map_map]
  refine List.map_congr_left (fun s _ => ?_)
  show { s with content := mergedContent completed { s with content := mergedContent completed s } }
      = { s with content := mergedContent completed s }
  rw [mergedContent_merge]

/- ------------------------------------------------------------------ -/
/- C8: compiled output shape and global URL deduplication             -/
/- ------------------------------------------------------------------ -/

/-- `List.contains` is decidable membership for strings. -/
theorem contains_eq_decide_mem (l : List String) (a : String) :
    l.contains a = decide (a ∈ l) := by simp

/-- Every element of the first-occurrence deduplication comes from the
input list. -/
theorem dedupFirstOccurrence_mem :
    ∀ (l : List String) (u : String), u ∈ dedupFirstOccurrence l → u ∈ l
  | [], u, h => by simp [dedupFirstOccurrence] at h
  | v :: rest, u, h => by
    rw [dedupFirstOccurrence] at h
    rcases List.mem_cons.mp h with h1 | h1
    · exact h1 ▸ List.mem_cons_self _ _
    · have h2 := dedupFirstOccurrence_mem _ _ h1
      exact List.mem_cons_of_mem _ (List.mem_filter.mp h2).1
termination_by l _ _ => l.length
decreasing_by
  simp only [List.length_cons]
  exact Nat.lt_succ_of_le (List.length_filter_le _ _)

/-- First-occurrence deduplication produces a duplicate-free list. -/
theorem dedupFirstOccurrence_nodup :
    ∀ (l : List String), (dedupFirstOccurrence l).Nodup
  | [] => by simp [dedupFirstOccurrence]
  | v :: rest => by
    rw [dedupFirstOccurrence]
    refine List.nodup_cons.mpr ⟨?_, dedupFirstOccurrence_nodup _⟩
    intro hmem
    have h1 := dedupFirstOccurrence_mem _ _ hmem
    have h2 := (List.mem_filter.mp h1).2
    simp at h2
termination_by l => l.length
decreasing_by
  simp only [List.length_cons]
  exact Nat.lt_succ_of_le (List.length_filter_le _ _)

/-- Characterisation of the `usedUrls` insertion fold shared by searchWeb
and compileFinalReport: starting from sources `acc` whose URL list is
`used`, the final URL list is `used` followed by the first occurrences of
the not-yet-used incoming URLs, in encounter order. -/
theorem foldl_addUnique_char :
    ∀ (l : List SourceReference) (acc : List SourceReference) (used : List String),
      used = acc.map (fun s => s.url) →
      (l.foldl addUniqueSource (acc, used)).1.map (fun s => s.url)
        = used ++ dedupFirstOccurrence
            ((l.map (fun s => s.url)).filter (fun u => !(used.contains u))) := by
  intro l
  induction l with
  | nil =>
    intro acc used hu
    simp [dedupFirstOccurrence, hu]
  | cons src rest ih =>
    intro acc used hu
    rw [List.foldl_cons]
    by_cases hc : used.contains src.url
    · have hmem : src.url ∈ used := by simpa [contains_eq_decide_mem] using hc
      have hstep : addUniqueSource (acc, used) src = (acc, used) := by
        unfold addUniqueSource
        rw [if_pos hc]
      rw [hstep, ih acc used hu, List.map_cons, List.filter_cons]
      have hdrop : (!(used.contains src.url)) = false := by
        simp [contains_eq_decide_mem, hmem]
      rw [hdrop]
      simp
    · have hnotmem : src.url ∉ used := by simpa [contains_eq_decide_mem] using hc
      have hstep : addUniqueSource (acc, used) src = (acc ++ [src], used ++ [src.url]) := by
        unfold addUniqueSource
        rw [if_neg hc]
      have hu' : used ++ [src.url] = (acc ++ [src]).map (fun s => s.url) := by
        simp [hu]
      rw [hstep, ih (acc ++ [src]) (used ++ [src.url]) hu', List.map_cons, List.filter_cons]
      have hkeep : (!(used.contains src.url)) = true := by
        simp [contains_eq_decide_mem, hnotmem]
      rw [if_pos hkeep, dedupFirstOccurrence, List.filter_filter, List.append_assoc]
      have hpred : (fun u => !((used ++ [src.url]).contains u))
          = (fun a => !(a == src.url) && !(used.contains a)) := by
        funext u
        by_cases h1 : u = src.url
        · simp [contains_eq_decide_mem, h1]
        · simp only [contains_eq_decide_mem, List.mem_append, List.mem_singleton]
          by_cases h2 : u ∈ used
          · simp [h1, h2]
          · simp [h1, h2]
      rw [hpred]
      rfl

/-- The nested per-section fold of compileFinalReport equals the flat
fold over all sources in section order. -/
theorem foldl_addUnique_sections (sections : List Section)
    (acc : List SourceReference × List String) :
    sections.foldl (fun a s => s.sources.foldl addUniqueSource a) acc
      = ((sections.map (fun s => s.sources)).flatten).foldl addUniqueSource acc := by
  induction sections generalizing acc with
  | nil => rfl
  | cons s rest ih => simp [List.foldl_append, ih]

/-- The URLs collected by compileFinalReport are exactly the
first-occurrence deduplication of all URLs across sections in order. -/
theorem collectUniqueSources_urls (sections : List Section) :
    (collectUniqueSources sections).map (fun s => s.url)
      = dedupFirstOccurrence
          (((sections.map (fun s => s.sources)).flatten).map (fun s => s.url)) := by
  unfold collectUniqueSources
  rw [foldl_addUnique_sections,
    foldl_addUnique_char ((sections.map (fun s => s.sources)).flatten) [] [] rfl]
  have hall : (fun u => !(([] : List String).contains u)) = (fun _ => true) := by
    funext u
    rfl
  rw [hall, List.filter_true, List.nil_append]

/-- Claim C8: the final report is the section contents joined with blank
lines in original `sections` order, followed — when any source exists —
by the bibliography header and the numbered `N. [title](url)` reference
list; the bibliography's URLs are each listed exactly once (Nodup), in
first-encounter order over the sections in original order; and the merge
step does not change any section's sources. -/
theorem compileFinalReport_output_shape (state : ReportState) :
    ((compileFinalReport state).final_report
      = String.intercalate ("\n\n")
          ((mergeSectionContents state.sections state.completed_sections).map
            (fun s => s.content))
        ++ (if collectUniqueSources
                (mergeSectionContents state.sections state.completed_sections) = []
            then ""
            else referencesHeader
              ++ referenceList (collectUniqueSources
                  (mergeSectionContents state.sections state.completed_sections)))) ∧
    ((collectUniqueSources (mergeSectionContents state.sections
        state.completed_sections)).map (fun s => s.url)
      = dedupFirstOccurrence ((((mergeSectionContents state.sections
          state.completed_sections).map (fun s => s.sources)).flatten).map
            (fun s => s.url))) ∧
    ((collectUniqueSources (mergeSectionContents state.sections
        state.completed_sections)).map (fun s => s.url)).Nodup ∧
    ((mergeSectionContents state.sections state.completed_sections).map
        (fun s => s.sources)
      = state.sections.map (fun s => s.sources)) := by
  refine ⟨?_, collectUniqueSources_urls _, ?_, ?_⟩
  · unfold compileFinalReport
    dsimp only
    by_cases h : collectUniqueSources
        (mergeSectionContents state.sections state.completed_sections) = []
    · rw [h]
      simp
    · have hlen : 0 < (collectUniqueSources
          (mergeSectionContents state.sections state.completed_sections)).length :=
        List.length_pos.mpr h
      rw [if_pos hlen, if_neg h, String.append_assoc]
  · rw [collectUniqueSources_urls]
    exact dedupFirstOccurrence_nodup _
  · unfold mergeSectionContents
    rw [List.map_map]
    rfl

/- ------------------------------------------------------------------ -/
/- C10: per-section sources stay unique by URL                        -/
/- ------------------------------------------------------------------ -/

/-- The insert loop of searchWeb preserves uniqueness-by-URL. -/
theorem mergeSources_url_nodup (existing news : List SourceReference)
    (h : (existing.map (fun s => s.url)).Nodup) :
    ((mergeSources existing news).map (fun s => s.url)).Nodup := by
  unfold mergeSources
  rw [foldl_addUnique_char news existing (existing.map (fun s => s.url)) rfl,
    List.nodup_append]
  refine ⟨h, dedupFirstOccurrence_nodup _, ?_⟩
  intro u hu hmem
  have h1 := dedupFirstOccurrence_mem _ _ hmem
  have h2 := (List.mem_filter.mp h1).2
  have h3 : u ∉ existing.map (fun s => s.url) := by
    intro hin
    rw [contains_eq_decide_mem] at h2
    simp [hin] at h2
  exact h3 hu

/-- Claim C10: if a section's sources are unique by URL, they remain
unique by URL after any searchWeb pass — searchWeb inserts only those
returned source references whose URL is not already present. -/
theorem searchWeb_sources_nodup (state : SectionState) (searchResult : SearchOutcome)
    (h : ((state.«section».sources).map (fun s => s.url)).Nodup) :
    ((((searchWeb state searchResult).«section»).sources).map (fun s => s.url)).Nodup := by
  unfold searchWeb
  dsimp only
  by_cases hlen : searchResult.sources.length > 0
  · rw [if_pos hlen]
    exact mergeSources_url_nodup _ _ h
  · rw [if_neg hlen]
    exact h

/-- Witness for C10: inserting an outcome with a repeated URL into a
fresh section leaves the section's URLs duplicate-free. -/
theorem searchWeb_sources_nodup_witness :
    ((((searchWeb initialSectionState duplicateUrlOutcome).«section»).sources).map
        (fun s => s.url)).Nodup :=
  searchWeb_sources_nodup initialSectionState duplicateUrlOutcome (by decide)

/- ------------------------------------------------------------------ -/
/- C6: failure granularity of the search gateway                      -/
/- ------------------------------------------------------------------ -/

/-- Claim C6 (amended): failure isolation is per batch of two, not per
query.  A batch in which every provider call succeeds contributes all its
responses; a batch in which any call fails is replaced wholesale by
error-tagged empty responses (one per query of that batch); and the
overall call is the concatenation of the independent batches, so a
failure never affects queries of other batches. -/
theorem batch_error_isolation (provider : String → Except String SearchResponse)
    (maxResults : Nat) (topic : String) (includeRawContent : Bool) :
    (∀ batch : List String, (∀ q ∈ batch, (provider q).isOk = true) →
        (processBatch provider maxResults topic includeRawContent batch).1
          = batch.filterMap (fun q => (provider q).toOption)) ∧
    (∀ batch : List String, (∃ q ∈ batch, ¬ (provider q).isOk = true) →
        (processBatch provider maxResults topic includeRawContent batch).1
          = batch.map (fun q => errorResponse q
              (firstErrorMsg (batch.map (fun q2 => (q2, provider q2)))))) ∧
    (∀ batches : List (List String),
        (runBatches provider maxResults topic includeRawContent batches).1
          = (batches.map (fun b =>
              (processBatch provider maxResults topic includeRawContent b).1)).flatten) := by
  refine ⟨?_, ?_, ?_⟩
  · intro batch hok
    unfold processBatch
    dsimp only
    have hall : (batch.map (fun q => (q, provider q))).all (fun qe => qe.2.isOk) = true := by
      rw [List.all_eq_true]
      intro qe hqe
      rcases List.mem_map.mp hqe with ⟨q, hq, rfl⟩
      exact hok q hq
    rw [if_pos hall, List.filterMap_map]
    rfl
  · rintro batch ⟨q, hq, hbad⟩
    unfold processBatch
    dsimp only
    have hnall : ¬ ((batch.map (fun q => (q, provider q))).all (fun qe => qe.2.isOk) = true) := by
      rw [List.all_eq_true]
      intro hforall
      exact hbad (hforall (q, provider q) (List.mem_map.mpr ⟨q, hq, rfl⟩))
    rw [if_neg hnall]
  · intro batches
    induction batches with
    | nil => rfl
    | cons b bs ih => simp [runBatches, ih]

/-- Witness for C6 (amended): with the fixture provider, the batch
["q1","q2"] (where only "q1" fails) collapses to two error responses. -/
theorem batch_error_isolation_witness :
    (processBatch partialFailureProvider 5 ("general") true (["q1", "q2"])).1
      = [errorResponse ("q1") ("boom"), errorResponse ("q2") ("boom")] := by
  have h := (batch_error_isolation partialFailureProvider 5 ("general") true).2.1
      (["q1", "q2"]) ⟨"q1", by decide, by decide⟩
  rw [h]
  decide

/-- Counterexample for C6 as stated: "q1" fails and "q2" succeeds in the
same batch of two, yet the call returns zero successful (error-free)
results instead of one — the succeeding query's result is discarded by
the batch-level catch handler. -/
theorem batch_partial_failure_cex :
    (partialFailureProvider ("q2")).isOk = true ∧
    ((tavilySearchAsync partialFailureProvider (["q1", "q2"]) 5 ("general") true []).1.filter
        (fun resp => resp.error.isNone)).length = 0 ∧
    (tavilySearchAsync partialFailureProvider (["q1", "q2"]) 5 ("general") true []).1.length
      = 2 := by
  decide

/- ------------------------------------------------------------------ -/
/- C9: in-memory caching of identical query tuples                    -/
/- ------------------------------------------------------------------ -/

/-- The uncached remainder of the cache-partition loop is the filter of
the queries whose key misses the cache. -/
theorem splitCached_snd (cache : List (String × SearchResponse)) (maxResults : Nat)
    (topic : String) (includeRawContent : Bool) :
    ∀ qs : List String,
      (splitCached cache maxResults topic includeRawContent qs).2
        = qs.filter (fun q =>
            (lookupCache cache (cacheKey q maxResults topic includeRawContent)).isNone) := by
  intro qs
  induction qs with
  | nil => rfl
  | cons q rest ih =>
    cases h : lookupCache cache (cacheKey q maxResults topic includeRawContent) with
    | none => simp [splitCached, h, ih, List.filter_cons]
    | some hit => simp [splitCached, h, ih, List.filter_cons]

/-- The invocation log of the batch loop is the concatenation of the
batches. -/
theorem runBatches_log (provider : String → Except String SearchResponse)
    (maxResults : Nat) (topic : String) (includeRawContent : Bool) :
    ∀ bs : List (List String),
      (runBatches provider maxResults topic includeRawContent bs).2.2 = bs.flatten := by
  intro bs
  induction bs with
  | nil => rfl
  | cons b bs ih => simp [runBatches, ih]

/-- Splitting into batches of two loses no queries. -/
theorem chunksOf2_flatten {α : Type} : ∀ (l : List α), (chunksOf2 l).flatten = l
  | [] => rfl
  | [a] => rfl
  | a :: b :: rest => by simp [chunksOf2, chunksOf2_flatten rest]

/-- A successful provider call inside a batch is stored in the cache
under its query's key, whether or not the batch fails. -/
theorem processBatch_entries_mem (provider : String → Except String SearchResponse)
    (maxResults : Nat) (topic : String) (includeRawContent : Bool)
    (batch : List String) (q : String) (resp : SearchResponse)
    (hq : q ∈ batch) (hp : provider q = .ok resp) :
    (cacheKey q maxResults topic includeRawContent, resp)
      ∈ (processBatch provider maxResults topic includeRawContent batch).2 := by
  unfold processBatch
  dsimp only
  apply List.mem_filterMap.mpr
  refine ⟨(q, provider q), List.mem_map.mpr ⟨q, hq, rfl⟩, ?_⟩
  rw [hp]

/-- A successful provider call anywhere in the batch loop is stored in
the produced cache entries. -/
theorem runBatches_entries_mem (provider : String → Except String SearchResponse)
    (maxResults : Nat) (topic : String) (includeRawContent : Bool) :
    ∀ (bs : List (List String)) (q : String) (resp : SearchResponse),
      q ∈ bs.flatten → provider q = .ok resp →
      (cacheKey q maxResults topic includeRawContent, resp)
        ∈ (runBatches provider maxResults topic includeRawContent bs).2.1 := by
  intro bs
  induction bs with
  | nil =>
    intro q resp hq hp
    simp at hq
  | cons b rest ih =>
    intro q resp hq hp
    rw [List.flatten_cons] at hq
    show _ ∈ (processBatch provider maxResults topic includeRawContent b).2
        ++ (runBatches provider maxResults topic includeRawContent rest).2.1
    rcases List.mem_append.mp hq with h | h
    · exact List.mem_append.mpr (Or.inl
        (processBatch_entries_mem provider maxResults topic includeRawContent b q resp h hp))
    · exact List.mem_append.mpr (Or.inr (ih q resp h hp))

/-- A present cache entry makes lookup succeed. -/
theorem lookupCache_isSome_of_mem :
    ∀ (l : List (String × SearchResponse)) (k : String) (v : SearchResponse),
      (k, v) ∈ l → (lookupCache l k).isSome = true := by
  intro l
  induction l with
  | nil =>
    intro k v h
    simp at h
  | cons e es ih =>
    intro k v h
    by_cases he : e.1 == k
    · rw [lookupCache, if_pos he]
      rfl
    · rw [lookupCache, if_neg he]
      rcases List.mem_cons.mp h with h1 | h1
      · exfalso
        apply he
        rw [← h1]
        simp
      · exact ih k v h1

/-- Claim C9 (amended): within one run (the cache starts empty and is not
persisted across runs), a call in which the query q appears once and the
provider answers q successfully invokes the provider exactly once for q's
tuple, caches the response under the key
`query:maxResults:topic:includeRawContent`, and a second call with the
identical tuple performs no provider invocation for it — provided the
first invocation succeeded, since a failed invocation is not cached. -/
theorem cache_single_invocation
    (provider₁ provider₂ : String → Except String SearchResponse)
    (qs₁ qs₂ : List String) (maxResults : Nat) (topic : String)
    (includeRawContent : Bool) (q : String) (resp : SearchResponse)
    (h1 : provider₁ q = .ok resp) (hcount : qs₁.count q = 1) :
    (tavilySearchAsync provider₁ qs₁ maxResults topic includeRawContent []).2.2.count q = 1 ∧
    (lookupCache
        (tavilySearchAsync provider₁ qs₁ maxResults topic includeRawContent []).2.1
        (cacheKey q maxResults topic includeRawContent)).isSome = true ∧
    (tavilySearchAsync provider₂ qs₂ maxResults topic includeRawContent
        (tavilySearchAsync provider₁ qs₁ maxResults topic includeRawContent []).2.1).2.2.count q
      = 0 := by
  have hsplit1 : (splitCached [] maxResults topic includeRawContent qs₁).2 = qs₁ := by
    rw [splitCached_snd]
    have hnone : (fun q' =>
        (lookupCache [] (cacheKey q' maxResults topic includeRawContent)).isNone)
        = (fun _ => true) := by
      funext q'
      rfl
    rw [hnone, List.filter_true]
  have hlog1 : (tavilySearchAsync provider₁ qs₁ maxResults topic includeRawContent []).2.2
      = qs₁ := by
    unfold tavilySearchAsync
    dsimp only
    rw [runBatches_log, chunksOf2_flatten, hsplit1]
  have hqmem : q ∈ qs₁ := List.count_pos_iff.mp (by omega)
  have hcache : (cacheKey q maxResults topic includeRawContent, resp)
      ∈ (tavilySearchAsync provider₁ qs₁ maxResults topic includeRawContent []).2.1 := by
    unfold tavilySearchAsync
    dsimp only
    rw [List.nil_append]
    exact runBatches_entries_mem provider₁ maxResults topic includeRawContent _ q resp
      (by rw [chunksOf2_flatten, hsplit1]; exact hqmem) h1
  have hsome := lookupCache_isSome_of_mem _ _ _ hcache
  refine ⟨?_, hsome, ?_⟩
  · rw [hlog1]
    exact hcount
  · have hlog2 : (tavilySearchAsync provider₂ qs₂ maxResults topic includeRawContent
        (tavilySearchAsync provider₁ qs₁ maxResults topic includeRawContent []).2.1).2.2
        = qs₂.filter (fun q' =>
            (lookupCache
              (tavilySearchAsync provider₁ qs₁ maxResults topic includeRawContent []).2.1
              (cacheKey q' maxResults topic includeRawContent)).isNone) := by
      unfold tavilySearchAsync
      dsimp only
      rw [runBatches_log, chunksOf2_flatten, splitCached_snd]
    rw [hlog2, List.count_eq_zero]
    intro hmem
    have hnone := (List.mem_filter.mp hmem).2
    rcases Option.isSome_iff_exists.mp hsome with ⟨v, hv⟩
    rw [hv] at hnone
    simp at hnone

/-- Witness for C9 (amended): a single successful call for "q" logs one
invocation, caches it, and a repeat call logs none. -/
theorem cache_single_invocation_witness :
    (tavilySearchAsync okProvider (["q"]) 5 ("general") true []).2.2.count ("q") = 1 ∧
    (lookupCache (tavilySearchAsync okProvider (["q"]) 5 ("general") true []).2.1
        (cacheKey ("q") 5 ("general") true)).isSome = true ∧
    (tavilySearchAsync okProvider (["q"]) 5 ("general") true
        (tavilySearchAsync okProvider (["q"]) 5 ("general") true []).2.1).2.2.count ("q")
      = 0 :=
  cache_single_invocation okProvider okProvider (["q"]) (["q"]) 5 ("general") true ("q")
    { query := "q" } rfl (by decide)

/-- Counterexample for C9 as stated: when the first call's provider
invocation for the tuple fails, nothing is cached, and an identical
second call invokes the provider again — two invocations for the same
tuple within one run. -/
theorem cache_retry_after_failure_cex :
    ((tavilySearchAsync failingProvider (["q"]) 5 ("general") true []).2.2
      ++ (tavilySearchAsync okProvider (["q"]) 5 ("general") true
            ((tavilySearchAsync failingProvider (["q"]) 5 ("general") true []).2.1)).2.2).count
        ("q") = 2 := by
  decide

/-- Claim C7: compileFinalReport is a pure function of the report state
(it is a Lean function, hence deterministic and free of I/O), and it is
idempotent: merging completed content a second time changes no section,
and compiling the state whose sections already carry the merged content
yields the identical final report text. -/
theorem compileFinalReport_idempotent (state : ReportState) :
    mergeSectionContents (mergeSectionContents state.sections state.completed_sections)
        state.completed_sections
      = mergeSectionContents state.sections state.completed_sections ∧
    compileFinalReport
        { state with sections := mergeSectionContents state.sections state.completed_sections }
      = compileFinalReport state := by
  refine ⟨mergeSectionContents_idem _ _, ?_⟩
  unfold compileFinalReport
  dsimp only
  rw [mergeSectionContents_idem]

end MastraODR
